import Mathlib

/-!
Shallow embedding of the EzRedbiom command builder and validator layer.

Sources embedded here:
* `src/Langchain_attempts/nother_file.py` — the builder functions that render
  redbiom command strings from typed arguments (Python f-string concatenation).
* `src/streamlit_redbiom_app.py` — `validate_redbiom_command`, the rule-based
  checker applied to model-generated command strings.
* `src/Langchain_attempts/tools.py` — `run_redbiom_command`, the subprocess
  wrapper that maps process outcomes to a result dictionary.

Python strings are modelled as Lean `String`; the Python string primitives
used by the source (`str.strip`, `str.split()`, `in` substring test,
`str.startswith`, `str.endswith`, `str.isdigit`, `str.join`) are defined below
by structural recursion over the character list so that concrete runs reduce
inside the kernel.
-/

/-- Python `str.strip()` on a character list: drop whitespace on both ends. -/
def pyStripL (s : List Char) : List Char :=
  ((s.dropWhile Char.isWhitespace).reverse.dropWhile Char.isWhitespace).reverse

/-- Python `str.strip()`. -/
def pyStrip (s : String) : String := ⟨pyStripL s.data⟩

/-- Helper for `pySplit`: accumulate the current word (reversed) while
scanning; whitespace runs separate words and leading/trailing whitespace
produces no empty words, exactly like Python `str.split()` with no
argument. -/
def pySplitAux : List Char → List Char → List (List Char)
  | [], acc => if acc.isEmpty then [] else [acc.reverse]
  | c :: cs, acc =>
    if c.isWhitespace then
      if acc.isEmpty then pySplitAux cs [] else acc.reverse :: pySplitAux cs []
    else pySplitAux cs (c :: acc)

/-- Python `str.split()` (no separator argument). -/
def pySplit (s : String) : List String :=
  (pySplitAux s.data []).map fun l => ⟨l⟩

/-- Boolean list-prefix test on character lists. -/
def isPrefixL : List Char → List Char → Bool
  | [], _ => true
  | _ :: _, [] => false
  | a :: as, b :: bs => a == b && isPrefixL as bs

/-- Python substring membership `sub in s` on character lists. -/
def containsSubL (sub : List Char) : List Char → Bool
  | [] => sub.isEmpty
  | c :: cs => isPrefixL sub (c :: cs) || containsSubL sub cs

/-- Python `sub in s` (substring containment). -/
def pyIn (sub s : String) : Bool := containsSubL sub.data s.data

/-- Python `s.startswith(pre)`. -/
def pyStartsWith (s pre : String) : Bool := isPrefixL pre.data s.data

/-- Python `s.endswith(suf)`. -/
def pyEndsWith (s suf : String) : Bool := isPrefixL suf.data.reverse s.data.reverse

/-- Python `s.isdigit()`: nonempty and all characters are digits. -/
def pyIsdigit (s : String) : Bool := !s.data.isEmpty && s.data.all Char.isDigit

/-- Python `sep.join(xs)`. -/
def joinSep (sep : String) : List String → String
  | [] => ""
  | [x] => x
  | x :: y :: xs => x ++ sep ++ joinSep sep (y :: xs)

/-!
## Builder functions — `src/Langchain_attempts/nother_file.py`

Each Python builder concatenates f-string fragments into a single command
string; the Lean definitions mirror the concatenation order and the
conditionals on optional arguments exactly.  Default argument values are
carried over as Lean default arguments.  Python `int` arguments become `Int`
(f-string interpolation of an int is its decimal form, i.e. `toString`).
-/

/-- `search_features(context, features, exact=False, min_count=1)`. -/
def search_features (context : String) (features : List String)
    (exact : Bool := false) (min_count : Int := 1) : String :=
  let cmd := "redbiom search features --context " ++ context
  let cmd := if exact then cmd ++ " --exact" else cmd
  let cmd := cmd ++ " --min-count " ++ toString min_count
  cmd ++ " " ++ joinSep " " features

/-- `search_metadata(query, categories=False)` — the query is wrapped in
double quotes by the source's f-string. -/
def search_metadata (query : String) (categories : Bool := false) : String :=
  let cmd := "redbiom search metadata"
  let cmd := if categories then cmd ++ " --categories" else cmd
  cmd ++ " \"" ++ query ++ "\""

/-- `search_taxon(context, taxon)` — the taxon is wrapped in double quotes. -/
def search_taxon (context taxon : String) : String :=
  "redbiom search taxon --context " ++ context ++ " \"" ++ taxon ++ "\""

/-- `fetch_samples(output, context, samples, md5=False,
resolve_ambiguities="none", fetch_taxonomy=False)`. -/
def fetch_samples (output context : String) (samples : List String)
    (md5 : Bool := false) (resolve_ambiguities : String := "none")
    (fetch_taxonomy : Bool := false) : String :=
  let cmd := "redbiom fetch samples --context " ++ context ++ " --output " ++ output
  let cmd := if md5 then cmd ++ " --md5" else cmd
  let cmd := if resolve_ambiguities ≠ "none"
    then cmd ++ " --resolve-ambiguities " ++ resolve_ambiguities else cmd
  let cmd := if fetch_taxonomy then cmd ++ " --fetch-taxonomy" else cmd
  cmd ++ " " ++ joinSep " " samples

/-- `fetch_qiita_study(study_id, context, output_basename,
resolve_ambiguities="none", fetch_taxonomy=False, remove_blanks=False,
md5=True)` — note the unusual default `md5=True`. -/
def fetch_qiita_study (study_id : Int) (context output_basename : String)
    (resolve_ambiguities : String := "none") (fetch_taxonomy : Bool := false)
    (remove_blanks : Bool := false) (md5 : Bool := true) : String :=
  let cmd := "redbiom fetch qiita-study --study-id " ++ toString study_id
    ++ " --context " ++ context ++ " --output-basename " ++ output_basename
  let cmd := if resolve_ambiguities ≠ "none"
    then cmd ++ " --resolve-ambiguities " ++ resolve_ambiguities else cmd
  let cmd := if fetch_taxonomy then cmd ++ " --fetch-taxonomy" else cmd
  let cmd := if remove_blanks then cmd ++ " --remove-blanks" else cmd
  if md5 then cmd ++ " --md5" else cmd

/-- `select_samples_from_metadata(context, query, samples)` — the query is
wrapped in double quotes. -/
def select_samples_from_metadata (context query : String)
    (samples : List String) : String :=
  let cmd := "redbiom select samples-from-metadata --context " ++ context
    ++ " \"" ++ query ++ "\""
  cmd ++ " " ++ joinSep " " samples

/-- `summarize_contexts()`. -/
def summarize_contexts : String := "redbiom summarize contexts"

/-!
## Command validator — `src/streamlit_redbiom_app.py`, `validate_redbiom_command`

The Python function returns early (a `(False, issues, suggestions)` triple)
from exactly four checks: program name, missing subcommand, unknown
subcommand, and missing action.  Every later check only appends to the local
`issues`/`suggestions` lists; the function body then ends — after assigning
the unused `dangerous_patterns` list — without a `return` statement, so
Python yields `None` on all remaining paths.  The embedding models the return
value as `Option (Bool × List String × List String)`, with `none` standing
for Python's implicit `None`; `validateTailChecks` carries out the remaining
(dead) accumulation faithfully before discarding it.
-/

/-- The `required_subcommands` dictionary of `validate_redbiom_command`,
in insertion order: family ↦ (action ↦ required parameters). -/
def requiredSubcommands : List (String × List (String × List String)) :=
  [("search",
    [("features", ["--context"]),
     ("samples", ["--context"]),
     ("taxon", ["--context"]),
     ("metadata", [])]),
   ("fetch",
    [("tags-contained", ["--context"]),
     ("samples-contained", []),
     ("features-contained", []),
     ("sample-metadata", ["--output"]),
     ("features", ["--context", "--output"]),
     ("samples", ["--context", "--output"]),
     ("qiita-study", ["--context", "--study-id", "--output-basename"])]),
   ("summarize",
    [("contexts", []),
     ("metadata-category", ["--category"]),
     ("metadata", []),
     ("table", ["--category", "--context", "--table"]),
     ("features", ["--category", "--context"]),
     ("samples", ["--category"]),
     ("taxonomy", ["--context"])]),
   ("select",
    [("samples-from-metadata", ["--context"]),
     ("features-from-samples", ["--context"])])]

/-- `valid_subcommands`: the four grammar families followed by five extra
subcommand names accepted without any further rules. -/
def validSubcommands : List String :=
  requiredSubcommands.map Prod.fst ++ ["stat", "feature-table", "tree", "context", "admin"]

/-- The `for param in required_params` loop: one issue and one suggestion per
required parameter that does not occur as a substring of the command. -/
def missingParamIssues (command subcommand action : String) :
    List String → List String × List String
  | [] => ([], [])
  | param :: rest =>
    let tail := missingParamIssues command subcommand action rest
    if pyIn param command then tail
    else
      (("Missing required parameter \x27" ++ param ++ "\x27 for \x27"
          ++ subcommand ++ " " ++ action ++ "\x27") :: tail.1,
       ("Add " ++ param ++ " parameter with appropriate value") :: tail.2)

/-- The tail of `validate_redbiom_command` after the subcommand/action block:
the output-flag extension check, the `--study-id`, `--category` and
`--context` value checks, and the assignment of `dangerous_patterns`.  All of
these only mutate the local `issues`/`suggestions` lists; the source function
then ends with no `return` statement, so the accumulated lists are discarded
and the Python value is `None` (`none` here). -/
def validateTailChecks (command : String) (command_parts : List String)
    (issues suggestions : List String) : Option (Bool × List String × List String) :=
  let output_flags := ["--output-file", "--output", "--output-basename"]
  let has_output_flag := output_flags.any fun flag => pyIn flag command
  let acc :=
    if has_output_flag then
      let valid_extensions := [".txt", ".tsv", ".csv", ".biom", ".qza", ".json"]
      let has_valid_extension :=
        command_parts.any fun x => valid_extensions.any fun e => pyEndsWith x e
      if ¬ has_valid_extension then
        (issues ++ ["Output file specified but no valid file extension found"],
         suggestions ++ ["Specify output file with proper extension: "
           ++ joinSep ", " valid_extensions])
      else (issues, suggestions)
    else (issues, suggestions)
  let acc :=
    if pyIn "--study-id" command then
      match command_parts.findIdx? (fun t => t == "--study-id") with
      | some study_id_idx =>
        if study_id_idx + 1 < command_parts.length then
          let study_id := command_parts.getD (study_id_idx + 1) ""
          if ¬ pyIsdigit study_id then
            (acc.1 ++ ["Study ID should be a number"],
             acc.2 ++ ["Use a numeric study ID (e.g., --study-id 12345)"])
          else acc
        else acc
      | none => acc
    else acc
  let acc :=
    if pyIn "--category" command then
      match command_parts.findIdx? (fun t => t == "--category") with
      | some cat_idx =>
        if cat_idx + 1 < command_parts.length then
          let category := command_parts.getD (cat_idx + 1) ""
          if (pyStrip category).data.length == 0 then
            (acc.1 ++ ["Category parameter cannot be empty"],
             acc.2 ++ ["Provide a valid metadata category name"])
          else acc
        else acc
      | none => acc
    else acc
  let acc :=
    if pyIn "--context" command then
      match command_parts.findIdx? (fun t => t == "--context") with
      | some ctx_idx =>
        if ctx_idx + 1 < command_parts.length then
          let context := command_parts.getD (ctx_idx + 1) ""
          if (pyStrip context).data.length == 0 || pyStartsWith context "-" then
            (acc.1 ++ ["Context parameter appears to be missing or invalid"],
             acc.2 ++ ["Provide a valid context name after --context"])
          else acc
        else acc
      | none =>
        (acc.1 ++ ["--context flag found but no context name provided"],
         acc.2 ++ ["Add a context name after --context flag"])
    else acc
  let _dangerous_patterns := [";", "&&", "||", ">", "<", "\x60"]
  let _ := acc
  none

/-- `validate_redbiom_command(command)` from `src/streamlit_redbiom_app.py`
(lines 192–335).  Docstring of the source: "Validate if the generated
command looks like a valid redbiom command.  Returns: (is_valid, issues,
suggestions)".  The embedding returns `some (is_valid, issues, suggestions)`
on the four early-return paths and `none` (Python `None`) when control falls
off the end of the function body. -/
def validate_redbiom_command (command : String) :
    Option (Bool × List String × List String) :=
  let command := pyStrip command
  if ¬ pyStartsWith command "redbiom" then
    some (false, ["Command doesn\x27t start with \x27redbiom\x27"],
          ["Add \x27redbiom\x27 at the beginning"])
  else
    let command_parts := pySplit command
    if command_parts.length < 2 then
      some (false, ["Command appears incomplete - missing subcommand"],
            ["Add a subcommand like: " ++ joinSep ", " (requiredSubcommands.map Prod.fst)])
    else
      let subcommand := command_parts.getD 1 ""
      if ¬ validSubcommands.contains subcommand then
        some (false, ["Unknown subcommand: \x27" ++ subcommand ++ "\x27"],
              ["Use one of: " ++ joinSep ", " validSubcommands])
      else
        match requiredSubcommands.lookup subcommand with
        | some familyActions =>
          if command_parts.length < 3 then
            some (false, ["Missing action for \x27" ++ subcommand ++ "\x27 subcommand"],
                  ["Add an action like: " ++ joinSep ", " ((familyActions.map Prod.fst).take 3)])
          else
            let action := command_parts.getD 2 ""
            match familyActions.lookup action with
            | none =>
              validateTailChecks command command_parts
                ["Unknown action \x27" ++ action ++ "\x27 for subcommand \x27"
                  ++ subcommand ++ "\x27"]
                ["Use one of: " ++ joinSep ", " (familyActions.map Prod.fst)]
            | some required_params =>
              let acc := missingParamIssues command subcommand action required_params
              validateTailChecks command command_parts acc.1 acc.2
        | none => validateTailChecks command command_parts [] []

/-!
## Call binding for builder invocations — `run_agent` in
`src/Langchain_attempts/nother_file.py`

`run_agent` invokes a builder as `function_to_call(**function_args)`.  Python
binds the keyword arguments against the function signature; a call that omits
a parameter having no default raises `TypeError: ... missing N required
positional arguments`, listing the missing names in signature order.  The
repository defines no error type of its own for this situation (in
particular, no `MissingRequiredFlag` exists anywhere in the source); the
`CallError.missingRequiredFlag` constructor below exists only so that the
error named by the specification can be stated and compared against what the
code actually does. -/

/-- Keyword-argument set for a call to `fetch_samples`, one optional field
per parameter of the Python signature. -/
structure FetchSamplesArgs where
  output : Option String := none
  context : Option String := none
  samples : Option (List String) := none
  md5 : Option Bool := none
  resolve_ambiguities : Option String := none
  fetch_taxonomy : Option Bool := none
deriving DecidableEq

/-- Errors a builder invocation could report.  `typeError` is Python's
`TypeError` for missing required positional arguments (carrying the missing
parameter names in signature order); `missingRequiredFlag` is the error the
specification describes, which no code in the repository ever constructs. -/
inductive CallError where
  | typeError (missing : List String)
  | missingRequiredFlag (flag : String)
deriving DecidableEq

/-- Python call binding of `fetch_samples(**args)`: parameters without
defaults (`output`, `context`, `samples`) must be supplied or the call raises
`TypeError` listing the missing names; otherwise the builder body runs with
defaults filled in for absent optional parameters. -/
def fetch_samples_call (args : FetchSamplesArgs) : Except CallError String :=
  let missing :=
    (if args.output.isNone then ["output"] else [])
      ++ (if args.context.isNone then ["context"] else [])
      ++ (if args.samples.isNone then ["samples"] else [])
  if missing.isEmpty then
    Except.ok (fetch_samples (args.output.getD "") (args.context.getD "")
      (args.samples.getD []) (args.md5.getD false)
      (args.resolve_ambiguities.getD "none") (args.fetch_taxonomy.getD false))
  else Except.error (CallError.typeError missing)

/-!
## Process runner — `run_redbiom_command` in `src/Langchain_attempts/tools.py`

The source wraps `subprocess.run(cmd, input=input_data, capture_output=True,
text=True, check=True, env=...)` in `try/except`.  The effect of the
subprocess call is modelled as an explicit `ProcOutcome` argument: the
process may complete with exit status 0, raise `CalledProcessError` (nonzero
exit, carrying captured stdout/stderr and the exception's string form), or
raise any other exception (carrying its string form).  The Python result
dictionary is modelled as an association list so that its exact key set is a
provable property. -/

/-- Outcome of the `subprocess.run` call inside `run_redbiom_command`. -/
inductive ProcOutcome where
  | completed (stdout stderr : String)
  | calledProcessError (stdout stderr msg : String)
  | otherError (msg : String)
deriving DecidableEq

/-- Value stored in the result dictionary of `run_redbiom_command`. -/
inductive RVal where
  | boolVal (v : Bool)
  | strVal (v : String)
deriving DecidableEq

/-- `run_redbiom_command(cmd, input_data=None)`: builds the result dictionary
for each outcome of the subprocess call, mirroring the source's
`e.stdout if e.stdout else ""` and `e.stderr if e.stderr else str(e)`
truthiness tests on the `CalledProcessError` path. -/
def run_redbiom_command (cmd : List String) (input_data : Option String)
    (outcome : ProcOutcome) : List (String × RVal) :=
  let _ := cmd
  let _ := input_data
  match outcome with
  | ProcOutcome.completed stdout stderr =>
    [("success", RVal.boolVal true), ("stdout", RVal.strVal stdout),
     ("stderr", RVal.strVal stderr)]
  | ProcOutcome.calledProcessError stdout stderr msg =>
    [("success", RVal.boolVal false),
     ("stdout", RVal.strVal (if stdout ≠ "" then stdout else "")),
     ("stderr", RVal.strVal (if stderr ≠ "" then stderr else msg))]
  | ProcOutcome.otherError msg =>
    [("success", RVal.boolVal false), ("stdout", RVal.strVal ""),
     ("stderr", RVal.strVal msg)]

/-!
## Theorems about the claims
-/

/-- C6: building fetch/samples with context "ctxA", output "out.biom" and
positional samples ["s1", "s2"], all other options at their defaults,
produces exactly the command string
`redbiom fetch samples --context ctxA --output out.biom s1 s2`. -/
theorem fetch_samples_concrete_scenario :
    fetch_samples "out.biom" "ctxA" ["s1", "s2"]
      = "redbiom fetch samples --context ctxA --output out.biom s1 s2" := by
  decide

/-- C1 (code bug): the round-trip property fails.  The command produced by
`fetch_samples "out.biom" "ctxA" ["s1", "s2"]` satisfies every rule the
validator checks, yet `validate_redbiom_command` applied to it yields `none`
(Python `None`) rather than a report with a valid verdict, because the source
function's body ends without a `return` statement on every path that passes
the four early checks — contradicting its own docstring, which promises an
`(is_valid, issues, suggestions)` triple. -/
theorem builder_output_gets_no_valid_report :
    validate_redbiom_command (fetch_samples "out.biom" "ctxA" ["s1", "s2"]) = none := by
  decide

/-- C2 (code bug): `validate_redbiom_command` does not return a completed
triple for every input.  On the well-formed command produced by
`summarize_contexts` it falls off the end of the function body and returns
Python `None`; the callers at lines 571 and 932 of the source unpack the
result as a triple and would raise `TypeError` on this value. -/
theorem validator_returns_none_not_triple :
    validate_redbiom_command summarize_contexts = none := by
  decide

/-- C3 (code bug): a command containing `;` receives no "unsafe shell
construct" issue.  The source computes the `dangerous_patterns` list but
never tests the command against it, and the function returns `None` on this
path, so the report the claim requires does not exist. -/
theorem semicolon_command_gets_no_unsafe_issue :
    validate_redbiom_command
      "redbiom fetch samples --context ctxA --output out.biom; rm -rf /" = none := by
  decide

/-- C4 counterexample: "stat" is not one of the four grammar families, yet
`validate_redbiom_command "redbiom stat"` reports no unknown-family issue at
all — `stat` is in the extended `valid_subcommands` list, so the function
skips the family block and returns `None`. -/
theorem unknown_family_stat_no_issue :
    validate_redbiom_command "redbiom stat" = none
      ∧ (requiredSubcommands.map Prod.fst).contains "stat" = false := by
  decide

/-- C4 (amended): for every command whose stripped form starts with
"redbiom", splits into at least two tokens, and whose second token is not in
the nine-element `valid_subcommands` list (the four families plus stat,
feature-table, tree, context, admin), the validator returns an invalid
report whose single issue names the unknown subcommand and whose suggestion
lists all nine subcommands, not just the four families. -/
theorem unknown_subcommand_report (command : String)
    (h1 : pyStartsWith (pyStrip command) "redbiom" = true)
    (h2 : 2 ≤ (pySplit (pyStrip command)).length)
    (h3 : validSubcommands.contains ((pySplit (pyStrip command)).getD 1 "") = false) :
    validate_redbiom_command command =
      some (false,
        ["Unknown subcommand: \x27" ++ (pySplit (pyStrip command)).getD 1 "" ++ "\x27"],
        ["Use one of: search, fetch, summarize, select, stat, feature-table, tree, context, admin"]) := by
  have hlt : ¬ (pySplit (pyStrip command)).length < 2 := Nat.not_lt.mpr h2
  unfold validate_redbiom_command
  simp only [h1, h3, not_true_eq_false, Bool.false_eq_true, not_false_eq_true,
    if_false, if_true, ite_true, ite_false, if_neg hlt]
  rfl

/-- C4 witness: the amended statement at the concrete command "redbiom blah". -/
theorem unknown_subcommand_report_witness :
    validate_redbiom_command "redbiom blah" =
      some (false, ["Unknown subcommand: \x27blah\x27"],
        ["Use one of: search, fetch, summarize, select, stat, feature-table, tree, context, admin"]) := by
  rw [unknown_subcommand_report "redbiom blah" (by decide) (by decide) (by decide)]
  decide

/-- C5 counterexample: a string with unbalanced quotes does not produce an
invalid report with a "malformed quoting" tokenization issue — tokenization
is plain whitespace splitting, which cannot fail, and this otherwise
well-formed command returns `None` rather than any report. -/
theorem unbalanced_quotes_no_tokenization_issue :
    validate_redbiom_command "redbiom summarize contexts \"" = none := by
  decide

/-- C5 (amended): the empty string and a whitespace-only string each return
an invalid report with exactly one issue, but the issue is the program-name
check "Command doesn't start with 'redbiom'", not a tokenization-category
issue; no unhandled failure occurs on these inputs. -/
theorem empty_and_whitespace_single_issue :
    validate_redbiom_command "" =
      some (false, ["Command doesn\x27t start with \x27redbiom\x27"],
        ["Add \x27redbiom\x27 at the beginning"])
    ∧ validate_redbiom_command "   " =
      some (false, ["Command doesn\x27t start with \x27redbiom\x27"],
        ["Add \x27redbiom\x27 at the beginning"]) := by
  decide

/-- C7 counterexample: invoking `fetch_samples` with only `output` supplied
does not fail with `MissingRequiredFlag("--context")` — no such error exists
in the code; the call fails with Python's `TypeError` for missing required
positional arguments instead. -/
theorem fetch_samples_call_not_missing_flag_error :
    fetch_samples_call { output := some "out.biom" }
      ≠ Except.error (CallError.missingRequiredFlag "--context") :=
  fun h => nomatch h

/-- C7 (amended): invoking `fetch_samples` with a parameter set containing
only `output` fails at Python call binding with a `TypeError` naming the
missing required parameters `context` and `samples` in signature order, and
no command string (partial or otherwise) is produced. -/
theorem fetch_samples_call_missing_args_typeerror :
    fetch_samples_call { output := some "out.biom" }
      = Except.error (CallError.typeError ["context", "samples"]) := rfl

/-- C8 counterexample: `search_features` with the context value "a b"
(containing whitespace) interpolates it unquoted, so the value does not form
a single token of the built command — it splits into the two tokens "a" and
"b". -/
theorem search_features_context_not_single_token :
    pySplit (search_features "a b" ["f1"])
      = ["redbiom", "search", "features", "--context", "a", "b", "--min-count", "1", "f1"]
    ∧ ¬ ("a b" ∈ pySplit (search_features "a b" ["f1"])) := by
  decide

/-- C8 (amended): only the free-text query argument of `search_metadata`,
`search_taxon` and `select_samples_from_metadata` is wrapped in double
quotes; every other value — contexts, outputs, features, samples — is
interpolated verbatim into the command with no quoting or escaping, so a
value containing whitespace or shell metacharacters is not protected. -/
theorem builder_quoting_shapes :
    (∀ q : String, search_metadata q = "redbiom search metadata \"" ++ q ++ "\"")
    ∧ (∀ c t : String, search_taxon c t
        = "redbiom search taxon --context " ++ c ++ " \"" ++ t ++ "\"")
    ∧ (∀ (c q : String) (ss : List String), select_samples_from_metadata c q ss
        = "redbiom select samples-from-metadata --context " ++ c ++ " \"" ++ q ++ "\""
            ++ " " ++ joinSep " " ss)
    ∧ (∀ (c : String) (fs : List String), search_features c fs
        = "redbiom search features --context " ++ c ++ " --min-count 1 " ++ joinSep " " fs)
    ∧ (∀ (o c : String) (ss : List String), fetch_samples o c ss
        = "redbiom fetch samples --context " ++ c ++ " --output " ++ o
            ++ " " ++ joinSep " " ss) := by
  refine ⟨fun q => rfl, fun c t => rfl, fun c q ss => rfl, fun c fs => ?_, fun o c ss => rfl⟩
  show "redbiom search features --context " ++ c ++ " --min-count " ++ toString (1 : Int)
      ++ " " ++ joinSep " " fs = _
  rw [String.append_assoc ("redbiom search features --context " ++ c ++ " --min-count ")
      (toString (1 : Int)) " "]
  rw [String.append_assoc ("redbiom search features --context " ++ c)
      " --min-count " (toString (1 : Int) ++ " ")]
  rfl

/-- C9: for every command argument list, every optional stdin string and
every outcome of the subprocess call, `run_redbiom_command` returns a
dictionary with exactly the keys success, stdout, stderr in that order; a
nonzero exit maps to success = False with the process stderr (or, when that
is empty, the exception's string form) in stderr, and any other exception
maps to success = False with its string form in stderr. -/
theorem run_redbiom_command_result_shape :
    (∀ (cmd : List String) (input_data : Option String) (o : ProcOutcome),
      (run_redbiom_command cmd input_data o).map Prod.fst
        = ["success", "stdout", "stderr"])
    ∧ (∀ (cmd : List String) (input_data : Option String) (sout serr msg : String),
        (run_redbiom_command cmd input_data
            (ProcOutcome.calledProcessError sout serr msg)).lookup "success"
          = some (RVal.boolVal false)
        ∧ (run_redbiom_command cmd input_data
            (ProcOutcome.calledProcessError sout serr msg)).lookup "stderr"
          = some (RVal.strVal (if serr ≠ "" then serr else msg)))
    ∧ (∀ (cmd : List String) (input_data : Option String) (msg : String),
        (run_redbiom_command cmd input_data (ProcOutcome.otherError msg)).lookup "success"
          = some (RVal.boolVal false)
        ∧ (run_redbiom_command cmd input_data (ProcOutcome.otherError msg)).lookup "stderr"
          = some (RVal.strVal msg)) := by
  refine ⟨fun cmd i o => ?_, fun cmd i sout serr msg => ⟨rfl, rfl⟩, fun cmd i msg => ⟨rfl, rfl⟩⟩
  cases o <;> rfl

/-- C10: with only the required arguments supplied (study id, context,
output basename) and every optional argument at its default,
`fetch_qiita_study` produces
`redbiom fetch qiita-study --study-id <id> --context <ctx>
--output-basename <base> --md5`, ending in the `--md5` flag because `md5`
defaults to True for this operation. -/
theorem fetch_qiita_study_defaults_end_md5 :
    (∀ (sid : Int) (c b : String), fetch_qiita_study sid c b
      = "redbiom fetch qiita-study --study-id " ++ toString sid ++ " --context " ++ c
          ++ " --output-basename " ++ b ++ " --md5")
    ∧ pyEndsWith (fetch_qiita_study 10317 "ctxA" "study_10317") "--md5" = true := by
  exact ⟨fun sid c b => rfl, by decide⟩
